import Mathlib

/-!
Shallow embedding of the `npm-cli-progressor` progress-tracking engine
(`StandardProgressCalculator`, `ProgressTracker`, `ConsoleProgressRenderer`,
`ProgressBar`, `CLIProgressHelper.withProgress`).

Modelling conventions:
* JavaScript numbers are modelled as exact rationals (`ℚ`); `Math.min` is `min`,
  `Math.round x` is `⌊x + 1/2⌋`, `Math.ceil` is `⌈·⌉`.
* `performance.now()` timestamps are passed explicitly as `now : ℚ` parameters.
* Observers are identified by natural numbers; a JS `Set` of observers is a
  duplicate-free insertion-ordered list.  Notifications and renderer
  invocations are recorded as explicit event lists.
* Terminal writes are recorded as events carrying the snapshot; the textual
  formatting of the output line (bar glyphs, colors, `toFixed`) is not modelled
  since no verified property depends on the characters written, only on
  whether and when a write happens.
-/

namespace Progressor

/-- Tracker lifecycle states used by `ProgressTracker.setState`. -/
inductive TState where
  | idle
  | active
  | completed
deriving DecidableEq, Repr

/-- Session (ProgressBar) lifecycle states: "idle, active, completed, stopped". -/
inductive BarState where
  | idle
  | active
  | completed
  | stopped
deriving DecidableEq, Repr

/-- JavaScript `Math.round`: round half toward positive infinity. -/
def jsRound (x : ℚ) : ℤ := ⌊x + 1/2⌋

/-- Mutable state of a `StandardProgressCalculator`: the speed-history buffer
and its capacity (`maxHistorySize`, constructed as 10). -/
structure CalcState where
  speedHistory : List ℚ
  maxHistorySize : ℕ
deriving DecidableEq, Repr

/-- Fresh `StandardProgressCalculator` state: empty history, capacity 10. -/
def CalcState.init : CalcState := ⟨[], 10⟩

/-- The object literal returned by `StandardProgressCalculator.calculate`. -/
structure CalcOut where
  current : ℚ
  total : ℚ
  percentage : ℚ
  elapsed : ℚ
  eta : ℚ
  speed : ℚ
  isComplete : Bool
  isIndeterminate : Bool
deriving DecidableEq, Repr

/-- Progress snapshot produced by `ProgressTracker.getProgress`:
the calculator output spread together with `description` and `state`. -/
structure Snapshot where
  current : ℚ
  total : ℚ
  percentage : ℚ
  elapsed : ℚ
  eta : ℚ
  speed : ℚ
  isComplete : Bool
  isIndeterminate : Bool
  description : String
  state : TState
deriving DecidableEq, Repr

namespace StandardProgressCalculator

/-- The percentage expression in `StandardProgressCalculator.calculate`:
`total > 0 ? Math.round((current / total) * 100 * 100) / 100 : 0`. -/
def percentageOf (current total : ℚ) : ℚ :=
  if 0 < total then (jsRound (current / total * 100 * 100) : ℚ) / 100 else 0

/-- `StandardProgressCalculator.calculateSpeed(current, elapsed)`:
returns 0 when `elapsed <= 0`; otherwise pushes `current / elapsed` onto the
history, drops the oldest sample when the buffer exceeds `maxHistorySize`
(`Array.shift`), and returns the arithmetic mean of the buffer. -/
def calculateSpeed (cs : CalcState) (current elapsed : ℚ) : ℚ × CalcState :=
  if elapsed ≤ 0 then (0, cs)
  else
    let currentSpeed := current / elapsed
    let pushed := cs.speedHistory ++ [currentSpeed]
    let hist := if cs.maxHistorySize < pushed.length then pushed.tail else pushed
    (hist.sum / (hist.length : ℚ), { cs with speedHistory := hist })

/-- `StandardProgressCalculator.calculate(current, total, startTime, lastUpdate)`
with the internal `performance.now()` passed as `now`.  (`lastUpdate` is a
parameter of the source method but is never read by its body.) -/
def calculate (cs : CalcState) (current total startTime lastUpdate now : ℚ) :
    CalcOut × CalcState :=
  let _ := lastUpdate
  let elapsed := (now - startTime) / 1000
  let percentage := percentageOf current total
  let sp := calculateSpeed cs current elapsed
  let speed := sp.1
  let eta := if 0 < current ∧ current < total ∧ 0 < speed
    then (total - current) / speed else 0
  (⟨current, total, percentage, elapsed, eta, speed,
    decide (total ≤ current), decide (total ≤ 0)⟩, sp.2)

end StandardProgressCalculator

/-- Notification events emitted by tracker operations.  `transition` records a
state change itself (observed by the ProgressBar's internal state hook);
`stateChange`/`progress` record one delivery per registered observer. -/
inductive TEvent where
  | progress (obs : ℕ) (snap : Snapshot)
  | stateChange (obs : ℕ) (new old : TState)
  | transition (new old : TState)
deriving DecidableEq, Repr

/-- State of a `ProgressTracker`. -/
structure ProgressTracker where
  total : ℚ
  current : ℚ
  description : String
  startTime : ℚ
  lastUpdateTime : ℚ
  calculator : CalcState
  observers : List ℕ
  stateObservers : List ℕ
  state : TState
deriving DecidableEq, Repr

namespace ProgressTracker

/-- `new ProgressTracker(total, description)` at time `t0`. -/
def mk0 (total : ℚ) (description : String) (t0 : ℚ) : ProgressTracker :=
  ⟨total, 0, description, t0, t0, CalcState.init, [], [], .idle⟩

/-- `addObserver`: JS `Set.add` — inserting an already-present member is a no-op. -/
def addObserver (t : ProgressTracker) (o : ℕ) : ProgressTracker :=
  { t with observers := if o ∈ t.observers then t.observers else t.observers ++ [o] }

/-- `removeObserver` / the cleanup closure returned by `addObserver`:
JS `Set.delete`. -/
def removeObserver (t : ProgressTracker) (o : ℕ) : ProgressTracker :=
  { t with observers := t.observers.erase o }

/-- `addStateObserver` (same `Set` semantics as `addObserver`). -/
def addStateObserver (t : ProgressTracker) (o : ℕ) : ProgressTracker :=
  { t with stateObservers :=
      if o ∈ t.stateObservers then t.stateObservers else t.stateObservers ++ [o] }

/-- `notifyObservers(progressData)`: one delivery per member, insertion order. -/
def notifyObservers (t : ProgressTracker) (snap : Snapshot) : List TEvent :=
  t.observers.map (fun o => TEvent.progress o snap)

/-- `notifyStateChange(newState, oldState)`: one delivery per state observer. -/
def notifyStateChange (t : ProgressTracker) (new old : TState) : List TEvent :=
  t.stateObservers.map (fun o => TEvent.stateChange o new old)

/-- `setState(newState)`: mutate and notify only when the state actually changes. -/
def setState (t : ProgressTracker) (new : TState) : ProgressTracker × List TEvent :=
  if t.state = new then (t, [])
  else
    let t' := { t with state := new }
    (t', TEvent.transition new t.state :: notifyStateChange t' new t.state)

/-- `getProgress()`: run the calculator (which mutates its speed history) and
spread in `description` and `state`. -/
def getProgress (t : ProgressTracker) (now : ℚ) : Snapshot × ProgressTracker :=
  let r := StandardProgressCalculator.calculate t.calculator t.current t.total
    t.startTime t.lastUpdateTime now
  (⟨r.1.current, r.1.total, r.1.percentage, r.1.elapsed, r.1.eta, r.1.speed,
    r.1.isComplete, r.1.isIndeterminate, t.description, t.state⟩,
   { t with calculator := r.2 })

/-- `increment(amount)` at time `now`.  Early-returns the current snapshot when
already `completed`; otherwise clamps `current` to `min(total, current+amount)`,
recomputes the snapshot, transitions to `completed` when the snapshot is
complete, and notifies the progress observers. -/
def increment (t : ProgressTracker) (amount now : ℚ) :
    ProgressTracker × Snapshot × List TEvent :=
  if t.state = .completed then
    let g := getProgress t now
    (g.2, g.1, [])
  else
    let t₁ := { t with current := min t.total (t.current + amount), lastUpdateTime := now }
    let g := getProgress t₁ now
    let snap := g.1
    let st := if snap.isComplete ∧ g.2.state ≠ .completed
      then setState g.2 .completed else (g.2, [])
    (st.1, snap, st.2 ++ notifyObservers st.1 snap)

/-- `complete()` at time `now`: early-returns the (recomputed) snapshot when
already `completed`; otherwise forces `current = total`, transitions to
`completed`, and returns a fresh snapshot. -/
def complete (t : ProgressTracker) (now : ℚ) :
    ProgressTracker × Snapshot × List TEvent :=
  if t.state = .completed then
    let g := getProgress t now
    (g.2, g.1, [])
  else
    let st := setState { t with current := t.total } .completed
    let g := getProgress st.1 now
    (g.2, g.1, st.2)

/-- `reset()` at time `now`: zero `current`, reset timestamps, transition to
`idle`, and clear the calculator's speed history. -/
def reset (t : ProgressTracker) (now : ℚ) : ProgressTracker × List TEvent :=
  let st := setState { t with current := 0, startTime := now, lastUpdateTime := now } .idle
  ({ st.1 with calculator := { st.1.calculator with speedHistory := [] } }, st.2)

/-- `setTotal(total)`: update the target without any validation. -/
def setTotal (t : ProgressTracker) (total : ℚ) : ProgressTracker :=
  { t with total := total }

end ProgressTracker

/-- JavaScript `Math.trunc` (round toward zero), used by the `%` operator. -/
def jsTrunc (q : ℚ) : ℤ := if 0 ≤ q then ⌊q⌋ else ⌈q⌉

/-- JavaScript `x % k === 0` for numbers: false when `k` is 0 (the remainder is
then `NaN`), otherwise whether the truncated-division remainder is zero. -/
def jsRemZero (x k : ℚ) : Bool :=
  if k = 0 then false else decide (x - k * (jsTrunc (x / k) : ℚ) = 0)

/-- Terminal-facing actions taken by `ConsoleProgressRenderer.render`.  The
formatted text is abstracted: each write event carries the snapshot it was
formatted from. -/
inductive ROut where
  | clearLine
  | write (snap : Snapshot)
  | completionMsg
  | logLine (snap : Snapshot)
deriving DecidableEq, Repr

/-- Configuration of a `ConsoleProgressRenderer` relevant to its control flow:
the `updateThrottle` interval and whether a `template` is configured (the
template branch returns a substituted string and writes nothing). -/
structure RenderCfg where
  updateThrottle : ℚ
  hasTemplate : Bool
deriving DecidableEq, Repr

/-- Mutable state of a `ConsoleProgressRenderer`: `lastRenderTime`,
`hasRenderedCompletion`, and the lazily created spinner's frame index. -/
structure RenderState where
  lastRenderTime : ℚ
  hasRenderedCompletion : Bool
  spinner : Option ℕ
deriving DecidableEq, Repr

namespace ConsoleProgressRenderer

/-- Renderer state as set up by the `ConsoleProgressRenderer` constructor. -/
def init : RenderState := ⟨0, false, none⟩

/-- `ConsoleProgressRenderer.render(progressData)` at time `now`, with the
terminal interactivity passed explicitly.  Faithfully follows the source's
control flow: throttle drop, `lastRenderTime` update, duplicate-completion
drop, template branch (returns a string, writes nothing), spinner advance for
indeterminate snapshots, in-place write plus one-shot completion message when
interactive, milestone-only logging otherwise. -/
def render (cfg : RenderCfg) (rs : RenderState) (snap : Snapshot) (now : ℚ)
    (interactive : Bool) : RenderState × List ROut :=
  if 0 < cfg.updateThrottle ∧ now - rs.lastRenderTime < cfg.updateThrottle then
    (rs, [])
  else
    let rs₁ := { rs with lastRenderTime := now }
    if snap.isComplete ∧ rs₁.hasRenderedCompletion then (rs₁, [])
    else if cfg.hasTemplate then (rs₁, [])
    else
      let rs₂ := if snap.isIndeterminate
        then { rs₁ with spinner := some ((rs₁.spinner.getD 0 + 1) % 10) }
        else rs₁
      if interactive then
        if snap.isComplete ∧ ¬ rs₂.hasRenderedCompletion then
          ({ rs₂ with hasRenderedCompletion := true },
           [.clearLine, .write snap, .completionMsg])
        else (rs₂, [.clearLine, .write snap])
      else
        if snap.isComplete ∨ snap.current = 0
            ∨ jsRemZero snap.current (⌈snap.total / 10⌉ : ℚ) then
          (rs₂, [.logLine snap])
        else (rs₂, [])

end ConsoleProgressRenderer

/-- Events produced by `ProgressBar` (Session) operations.  `render` records an
invocation of `this.renderer.render(progress)` (the renderer itself is
pluggable); tracker notifications are embedded via `tevent`. -/
inductive BEvent where
  | render (snap : Snapshot)
  | tevent (e : TEvent)
  | hideCursor
  | showCursor
  | consoleErrorFail (desc msg : String)
deriving DecidableEq, Repr

/-- Whether a tracker event is a state transition into `completed` — exactly
the situation in which the `ProgressBar` constructor's internal state observer
sets the session state to `completed`. -/
def TEvent.toCompleted : TEvent → Bool
  | .transition new _ => new = TState.completed
  | _ => false

/-- State of a `ProgressBar` (Session): its tracker, its own state machine, and
the `updateInterval` / `cleanupFn` handles (modelled as booleans). -/
structure ProgressBar where
  tracker : ProgressTracker
  state : BarState
  updateInterval : Bool
  cleanupFn : Bool
deriving DecidableEq, Repr

namespace ProgressBar

/-- `new ProgressBar(total, description)` at time `t0`.  The constructor also
registers the internal tracker state observer, whose effect (session state
becomes `completed` on a tracker transition to `completed`) is applied by the
operations below whenever tracker events contain such a transition. -/
def mk0 (total : ℚ) (description : String) (t0 : ℚ) : ProgressBar :=
  ⟨ProgressTracker.mk0 total description t0, .idle, false, false⟩

/-- `start()`: no-op unless `idle`; otherwise become `active`, push the tracker
to `active`, hide the cursor, register the cleanup task, and start the
periodic tick when the session is indeterminate (`total <= 0`). -/
def start (b : ProgressBar) : ProgressBar × List BEvent :=
  if b.state ≠ .idle then (b, [])
  else
    let st := b.tracker.setState .active
    let b₁ : ProgressBar := { b with state := .active, tracker := st.1, cleanupFn := true }
    let b₂ := if b₁.tracker.total ≤ 0 then { b₁ with updateInterval := true } else b₁
    (b₂, st.2.map BEvent.tevent ++ [.hideCursor])

/-- `stop()`: no-op when `idle` or `stopped`; otherwise set the session state
to `stopped` (the source performs no completed-state check here), show the
cursor, cancel the tick, and detach the cleanup task. -/
def stop (b : ProgressBar) : ProgressBar × List BEvent :=
  if b.state = .idle ∨ b.state = .stopped then (b, [])
  else
    ({ b with state := .stopped, updateInterval := false, cleanupFn := false },
     [.showCursor])

/-- `update(increment)` at time `now`: early-return when the session is
`completed`; auto-`start` when `idle`; increment the tracker (its transition
to `completed`, if any, flips the session state via the internal observer);
invoke the renderer; then, if the snapshot is complete and the session state
is still not `completed`, mark it completed and `stop()`. -/
def update (b : ProgressBar) (inc now : ℚ) : ProgressBar × Snapshot × List BEvent :=
  if b.state = .completed then
    let g := b.tracker.getProgress now
    ({ b with tracker := g.2 }, g.1, [])
  else
    let s := if b.state = .idle then b.start else (b, [])
    let r := s.1.tracker.increment inc now
    let snap := r.2.1
    let bState := if r.2.2.any TEvent.toCompleted then BarState.completed else s.1.state
    let b₂ : ProgressBar := { s.1 with tracker := r.1, state := bState }
    let fin := if snap.isComplete ∧ b₂.state ≠ .completed
      then ProgressBar.stop { b₂ with state := .completed }
      else (b₂, [])
    (fin.1, snap,
     s.2 ++ r.2.2.map BEvent.tevent ++ [.render snap] ++ fin.2)

/-- `complete()` at time `now`: early-return (no render) when the session is
already `completed`; otherwise mark the session completed, force tracker
completion, invoke the renderer once, and `stop()`. -/
def complete (b : ProgressBar) (now : ℚ) : ProgressBar × Snapshot × List BEvent :=
  if b.state = .completed then
    let g := b.tracker.getProgress now
    ({ b with tracker := g.2 }, g.1, [])
  else
    let r := b.tracker.complete now
    let b₁ : ProgressBar := { b with state := .completed, tracker := r.1 }
    let fin := ProgressBar.stop b₁
    (fin.1, r.2.1, r.2.2.map BEvent.tevent ++ [.render r.2.1] ++ fin.2)

/-- `isCompleted()`: whether the session state is `completed`. -/
def isCompleted (b : ProgressBar) : Bool := b.state = BarState.completed

end ProgressBar

/-- Run a sequence of `update(increment)` calls, each with its own timestamp,
accumulating the emitted events. -/
def ProgressBar.updates (b : ProgressBar) (l : List (ℚ × ℚ)) :
    ProgressBar × List BEvent :=
  l.foldl (fun acc p =>
    let r := ProgressBar.update acc.1 p.1 p.2
    (r.1, acc.2 ++ r.2.2)) (b, [])

namespace CLIProgressHelper

/-- Modelled task body for `CLIProgressHelper.withProgress`: the wrapped async
task calls the provided update callback a number of times (each call given as
`(increment, timestamp)`) and then either returns a value or throws. -/
def runTask (b : ProgressBar) (upds : List (ℚ × ℚ)) : ProgressBar × List BEvent :=
  ProgressBar.updates b upds

/-- `CLIProgressHelper.withProgress(total, description, asyncTask)`: build a
session, `start()` it, run the task; on normal return `complete()` unless the
session already completed itself, and return the task's result; on a throw,
`stop()` the session, emit the failure notice naming the description, and
re-raise the original error. -/
def withProgress (total : ℚ) (description : String) (t0 : ℚ)
    (upds : List (ℚ × ℚ)) (outcome : Except String String) (tEnd : ℚ) :
    Except String String × ProgressBar × List BEvent :=
  let b0 := ProgressBar.mk0 total description t0
  let s := b0.start
  let r := runTask s.1 upds
  match outcome with
  | .ok v =>
    if r.1.isCompleted then (.ok v, r.1, s.2 ++ r.2)
    else
      let c := r.1.complete tEnd
      (.ok v, c.1, s.2 ++ r.2 ++ c.2.2)
  | .error e =>
    let st := r.1.stop
    (.error e, st.1, s.2 ++ r.2 ++ st.2 ++ [.consoleErrorFail description e])

end CLIProgressHelper

/-- Whether a session event is an invocation of `renderer.render`. -/
def BEvent.isRender : BEvent → Bool
  | .render _ => true
  | _ => false

/-- Whether a tracker event is a progress notification delivered to observer `o`. -/
def TEvent.progressTo (o : ℕ) : TEvent → Bool
  | .progress o' _ => o' = o
  | _ => false

/-- Arithmetic mean of a list of rationals (0 for the empty list, matching
`[].reduce((a,b)=>a+b,0) / [].length` never being reached in the source). -/
def listMean (l : List ℚ) : ℚ := l.sum / (l.length : ℚ)

/-- Run a sequence of `increment(amount)` calls, each with its own timestamp. -/
def ProgressTracker.incrAll (t : ProgressTracker) (l : List (ℚ × ℚ)) : ProgressTracker :=
  l.foldl (fun t p => (t.increment p.1 p.2).1) t

/-- The tracker operations a caller can perform, each carrying its timestamp:
`increment`, `reset`, `complete`, `setTotal`, and a bare `getProgress` read
(which also feeds the speed history). -/
inductive TOp where
  | incrOp (amount now : ℚ)
  | resetOp (now : ℚ)
  | completeOp (now : ℚ)
  | setTotalOp (x : ℚ)
  | readOp (now : ℚ)
deriving DecidableEq, Repr

/-- Apply one tracker operation. -/
def ProgressTracker.applyOp (t : ProgressTracker) : TOp → ProgressTracker
  | .incrOp a now => (t.increment a now).1
  | .resetOp now => (t.reset now).1
  | .completeOp now => (t.complete now).1
  | .setTotalOp x => t.setTotal x
  | .readOp now => (t.getProgress now).2

/-- Apply a sequence of tracker operations. -/
def ProgressTracker.applyOps (t : ProgressTracker) (ops : List TOp) : ProgressTracker :=
  ops.foldl ProgressTracker.applyOp t

/-- The history-length-bounded-by-capacity invariant whose preservation across
all tracker operations underlies C8. -/
def histInv (t : ProgressTracker) : Prop :=
  t.calculator.speedHistory.length ≤ t.calculator.maxHistorySize

/-- Concrete run for C3 at the tracker level: total 10, one `increment(5)` at
`t = 1000ms` (one second after construction). -/
def c3tracker : ProgressTracker := ((ProgressTracker.mk0 10 "d" 0).increment 5 1000).1

/-- First `complete()` call on the C3 tracker, at the same instant. -/
def c3first : ProgressTracker × Snapshot × List TEvent := c3tracker.complete 1000

/-- Second `complete()` call on the C3 tracker, still at the same instant. -/
def c3second : ProgressTracker × Snapshot × List TEvent := c3first.1.complete 1000

/-- Concrete run for C3 at the session level: total 5, `update(2)` at 1000ms. -/
def c3bar : ProgressBar := ((ProgressBar.mk0 5 "d" 0).update 2 1000).1

/-- First session-level `complete()` for C3. -/
def c3barFirst : ProgressBar × Snapshot × List BEvent := c3bar.complete 2000

/-- Second session-level `complete()` for C3. -/
def c3barSecond : ProgressBar × Snapshot × List BEvent := c3barFirst.1.complete 3000

/-- Concrete run for C4: a session completed via `complete()` after a partial
`update(2)`. -/
def c4bar : ProgressBar := (((ProgressBar.mk0 5 "d" 0).update 2 1000).1.complete 2000).1

/-- A further tracker-level `increment(1)` on the completed C4 tracker. -/
def c4incr : ProgressTracker × Snapshot × List TEvent := c4bar.tracker.increment 1 3000

/-- A further session-level `update(1)` on the completed C4 session. -/
def c4update : ProgressBar × Snapshot × List BEvent := c4bar.update 1 3000

/-- Concrete C9 run in which the task updates 2 of 5 units and then throws. -/
def c9fail : Except String String × ProgressBar × List BEvent :=
  CLIProgressHelper.withProgress 5 "job" 0 [(2, 1000)] (.error "boom") 2000

/-- Concrete C9 run in which the task updates 2 of 5 units and returns normally. -/
def c9ok : Except String String × ProgressBar × List BEvent :=
  CLIProgressHelper.withProgress 5 "job" 0 [(2, 1000)] (.ok "done") 2000

/-- A completed snapshot used to exercise the renderer throttle in C6. -/
def c6snap : Snapshot := ⟨5, 5, 100, 1, 0, 5, true, false, "d", .completed⟩

attribute [local semireducible] Rat.mul Rat.inv Rat.add Rat.sub

@[simp] lemma getProgress_snd_total (t : ProgressTracker) (now : ℚ) :
    (t.getProgress now).2.total = t.total := rfl

@[simp] lemma getProgress_snd_current (t : ProgressTracker) (now : ℚ) :
    (t.getProgress now).2.current = t.current := rfl

@[simp] lemma getProgress_snd_state (t : ProgressTracker) (now : ℚ) :
    (t.getProgress now).2.state = t.state := rfl

@[simp] lemma getProgress_snd_observers (t : ProgressTracker) (now : ℚ) :
    (t.getProgress now).2.observers = t.observers := rfl

@[simp] lemma getProgress_snd_stateObservers (t : ProgressTracker) (now : ℚ) :
    (t.getProgress now).2.stateObservers = t.stateObservers := rfl

@[simp] lemma getProgress_fst_isComplete (t : ProgressTracker) (now : ℚ) :
    (t.getProgress now).1.isComplete = decide (t.total ≤ t.current) := rfl

@[simp] lemma setState_fst_total (t : ProgressTracker) (s' : TState) :
    (t.setState s').1.total = t.total := by
  unfold ProgressTracker.setState
  split <;> rfl

@[simp] lemma setState_fst_current (t : ProgressTracker) (s' : TState) :
    (t.setState s').1.current = t.current := by
  unfold ProgressTracker.setState
  split <;> rfl

@[simp] lemma setState_fst_observers (t : ProgressTracker) (s' : TState) :
    (t.setState s').1.observers = t.observers := by
  unfold ProgressTracker.setState
  split <;> rfl

@[simp] lemma setState_fst_stateObservers (t : ProgressTracker) (s' : TState) :
    (t.setState s').1.stateObservers = t.stateObservers := by
  unfold ProgressTracker.setState
  split <;> rfl

@[simp] lemma setState_fst_state (t : ProgressTracker) (s' : TState) :
    (t.setState s').1.state = s' := by
  unfold ProgressTracker.setState
  split
  next h => exact h
  next => rfl

lemma min_shift (T s a : ℚ) (ha : 0 ≤ a) : min T (min T s + a) = min T (s + a) := by
  rcases le_total T s with h | h
  · rw [min_eq_left h, min_eq_left (by linarith : T ≤ T + a),
      min_eq_left (by linarith : T ≤ s + a)]
  · rw [min_eq_right h]

lemma increment_completed (t : ProgressTracker) (a now : ℚ) (hst : t.state = .completed) :
    (t.increment a now).1.total = t.total ∧ (t.increment a now).1.current = t.current ∧
    (t.increment a now).1.state = t.state ∧ (t.increment a now).2.2 = [] := by
  simp [ProgressTracker.increment, hst]

lemma increment_not_completed (t : ProgressTracker) (a now : ℚ)
    (hst : ¬ t.state = .completed) :
    (t.increment a now).1.total = t.total ∧
    (t.increment a now).1.current = min t.total (t.current + a) ∧
    ((t.increment a now).1.state = .completed ↔ t.total ≤ min t.total (t.current + a)) := by
  simp only [ProgressTracker.increment, if_neg hst]
  by_cases hcomp : t.total ≤ min t.total (t.current + a)
  · simp [hcomp, hst]
  · simp [hcomp, hst]

lemma incrAll_cons (t : ProgressTracker) (p : ℚ × ℚ) (l : List (ℚ × ℚ)) :
    t.incrAll (p :: l) = ((t.increment p.1 p.2).1).incrAll l := rfl

lemma incrAll_append (t : ProgressTracker) (l₁ l₂ : List (ℚ × ℚ)) :
    t.incrAll (l₁ ++ l₂) = (t.incrAll l₁).incrAll l₂ := by
  simp [ProgressTracker.incrAll, List.foldl_append]

lemma incrAll_inv (T : ℚ) (l : List (ℚ × ℚ)) :
    ∀ (t : ProgressTracker) (s : ℚ), t.total = T → t.current = min T s →
    (t.state = .completed → T ≤ s) → (∀ p ∈ l, 0 ≤ p.1) →
    (t.incrAll l).total = T ∧
    (t.incrAll l).current = min T (s + (l.map Prod.fst).sum) ∧
    ((t.incrAll l).state = .completed → T ≤ s + (l.map Prod.fst).sum) := by
  induction l with
  | nil =>
    intro t s hT hc hs _
    simpa [ProgressTracker.incrAll] using ⟨hT, hc, hs⟩
  | cons p rest ih =>
    intro t s hT hc hs hpos
    have hp : 0 ≤ p.1 := hpos p (List.mem_cons_self p rest)
    have hrest : ∀ q ∈ rest, 0 ≤ q.1 := fun q hq => hpos q (List.mem_cons_of_mem p hq)
    rw [incrAll_cons]
    by_cases hst : t.state = .completed
    · have hTs : T ≤ s := hs hst
      obtain ⟨h1, h2, h3, _⟩ := increment_completed t p.1 p.2 hst
      have hcur : (t.increment p.1 p.2).1.current = min T (s + p.1) := by
        rw [h2, hc, min_eq_left hTs, min_eq_left (by linarith : T ≤ s + p.1)]
      have := ih (t.increment p.1 p.2).1 (s + p.1) (h1.trans hT) hcur
        (fun _ => by linarith) hrest
      simpa [add_assoc] using this
    · obtain ⟨h1, h2, h3⟩ := increment_not_completed t p.1 p.2 hst
      have hcur : (t.increment p.1 p.2).1.current = min T (s + p.1) := by
        rw [h2, hc, hT, min_shift T s p.1 hp]
      have hstate : (t.increment p.1 p.2).1.state = .completed → T ≤ s + p.1 := by
        intro hcp
        have h4 := h3.mp hcp
        rw [hT, hc] at h4
        have h5 : min T (min T s + p.1) ≤ min T s + p.1 := min_le_right _ _
        have h6 : min T s ≤ s := min_le_right _ _
        linarith [le_trans h4 h5]
      have := ih (t.increment p.1 p.2).1 (s + p.1) (h1.trans hT) hcur hstate hrest
      simpa [add_assoc] using this

/-- C1: from a fresh tracker with total `T`, after any nonempty sequence of
`increment(aᵢ)` calls with all `aᵢ ≥ 0`, `current` equals
`min(T, a₁ + ... + a_N)`; in particular `current` never decreases as further
increments are applied. -/
theorem claim1_increment_monotonic_min (T t0 : ℚ) (d : String) (l₁ l₂ : List (ℚ × ℚ))
    (h₁ : ∀ p ∈ l₁, 0 ≤ p.1) (h₂ : ∀ p ∈ l₂, 0 ≤ p.1) (hne : l₁ ≠ []) :
    ((ProgressTracker.mk0 T d t0).incrAll l₁).current = min T (l₁.map Prod.fst).sum ∧
    ((ProgressTracker.mk0 T d t0).incrAll l₁).current
      ≤ ((ProgressTracker.mk0 T d t0).incrAll (l₁ ++ l₂)).current := by
  obtain ⟨p, rest, rfl⟩ := List.exists_cons_of_ne_nil hne
  have hp : 0 ≤ p.1 := h₁ p (List.mem_cons_self p rest)
  have hrest : ∀ q ∈ rest, 0 ≤ q.1 := fun q hq => h₁ q (List.mem_cons_of_mem p hq)
  have hfresh : ¬ (ProgressTracker.mk0 T d t0).state = .completed := by
    simp [ProgressTracker.mk0]
  obtain ⟨h1, h2, h3⟩ := increment_not_completed (ProgressTracker.mk0 T d t0) p.1 p.2 hfresh
  have hT1 : ((ProgressTracker.mk0 T d t0).increment p.1 p.2).1.total = T := h1
  have hc1 : ((ProgressTracker.mk0 T d t0).increment p.1 p.2).1.current = min T p.1 := by
    rw [h2]
    simp [ProgressTracker.mk0]
  have hs1 : ((ProgressTracker.mk0 T d t0).increment p.1 p.2).1.state = .completed → T ≤ p.1 := by
    intro hcp
    have h4 := h3.mp hcp
    simp [ProgressTracker.mk0] at h4
    exact h4
  have inv₁ := incrAll_inv T rest _ p.1 hT1 hc1 hs1 hrest
  constructor
  · rw [incrAll_cons]
    rw [inv₁.2.1]
    simp
  · rw [List.cons_append, incrAll_cons, incrAll_cons, incrAll_append]
    have invState : ((((ProgressTracker.mk0 T d t0).increment p.1 p.2).1).incrAll rest).state
        = .completed → T ≤ p.1 + (rest.map Prod.fst).sum := inv₁.2.2
    have inv₂ := incrAll_inv T l₂ _ (p.1 + (rest.map Prod.fst).sum) inv₁.1 inv₁.2.1 invState
      h₂
    rw [inv₁.2.1, inv₂.2.1]
    have hsum : 0 ≤ (l₂.map Prod.fst).sum := by
      apply List.sum_nonneg
      intro x hx
      obtain ⟨q, hq, rfl⟩ := List.mem_map.mp hx
      exact h₂ q hq
    exact min_le_min (le_refl T) (by linarith)

/-- Witness for C1: total 10, increments 3 then 4 — after the first call
`current = min 10 3 = 3`, and it does not decrease when the second call runs. -/
theorem claim1_witness :
    ((ProgressTracker.mk0 10 "d" 0).incrAll [(3, 100)]).current
        = min 10 (([((3:ℚ), (100:ℚ))].map Prod.fst).sum) ∧
    ((ProgressTracker.mk0 10 "d" 0).incrAll [(3, 100)]).current
      ≤ ((ProgressTracker.mk0 10 "d" 0).incrAll ([(3, 100)] ++ [(4, 200)])).current :=
  claim1_increment_monotonic_min 10 0 "d" [(3, 100)] [(4, 200)]
    (by intro p hp; rw [List.mem_singleton] at hp; subst hp; norm_num)
    (by intro p hp; rw [List.mem_singleton] at hp; subst hp; norm_num)
    (by simp)

@[simp] lemma setState_fst_calculator (t : ProgressTracker) (s' : TState) :
    (t.setState s').1.calculator = t.calculator := by
  unfold ProgressTracker.setState
  split <;> rfl

lemma calculateSpeed_max (cs : CalcState) (c e : ℚ) :
    (StandardProgressCalculator.calculateSpeed cs c e).2.maxHistorySize
      = cs.maxHistorySize := by
  unfold StandardProgressCalculator.calculateSpeed
  split <;> rfl

lemma calculateSpeed_len (cs : CalcState) (c e : ℚ)
    (h : cs.speedHistory.length ≤ cs.maxHistorySize) :
    (StandardProgressCalculator.calculateSpeed cs c e).2.speedHistory.length
      ≤ (StandardProgressCalculator.calculateSpeed cs c e).2.maxHistorySize := by
  simp only [StandardProgressCalculator.calculateSpeed]
  split
  · exact h
  · split
    next hlen =>
      simp only [List.length_tail, List.length_append, List.length_singleton]
      omega
    next hlen =>
      simp only [List.length_append, List.length_singleton]
      simp only [not_lt] at hlen
      simpa using hlen

lemma getProgress_calculator (t : ProgressTracker) (now : ℚ) :
    (t.getProgress now).2.calculator
      = (StandardProgressCalculator.calculateSpeed t.calculator t.current
          ((now - t.startTime) / 1000)).2 := rfl

lemma getProgress_hist (t : ProgressTracker) (now : ℚ) (h : histInv t) :
    histInv (t.getProgress now).2 := by
  unfold histInv
  rw [getProgress_calculator]
  exact calculateSpeed_len _ _ _ h

lemma getProgress_max (t : ProgressTracker) (now : ℚ) :
    (t.getProgress now).2.calculator.maxHistorySize = t.calculator.maxHistorySize := by
  rw [getProgress_calculator]
  exact calculateSpeed_max _ _ _

lemma applyOp_hist (t : ProgressTracker) (op : TOp) (h : histInv t) :
    histInv (t.applyOp op) := by
  cases op with
  | incrOp a now =>
    show histInv (t.increment a now).1
    unfold ProgressTracker.increment
    split
    · exact getProgress_hist t now h
    · set t₁ : ProgressTracker :=
        { t with current := min t.total (t.current + a), lastUpdateTime := now } with ht₁
      have h₁ : histInv t₁ := h
      have h₂ : histInv (t₁.getProgress now).2 := getProgress_hist t₁ now h₁
      simp only []
      split
      · unfold histInv
        rw [setState_fst_calculator]
        exact h₂
      · exact h₂
  | resetOp now =>
    show histInv (t.reset now).1
    unfold histInv ProgressTracker.reset
    simp
  | completeOp now =>
    show histInv (t.complete now).1
    unfold ProgressTracker.complete
    split
    · exact getProgress_hist t now h
    · apply getProgress_hist
      unfold histInv
      rw [setState_fst_calculator]
      exact h
  | setTotalOp x =>
    exact h
  | readOp now =>
    exact getProgress_hist t now h

lemma applyOp_max (t : ProgressTracker) (op : TOp) :
    (t.applyOp op).calculator.maxHistorySize = t.calculator.maxHistorySize := by
  cases op with
  | incrOp a now =>
    show (t.increment a now).1.calculator.maxHistorySize = _
    unfold ProgressTracker.increment
    split
    · exact getProgress_max t now
    · simp only []
      split
      · rw [setState_fst_calculator, getProgress_max]
      · rw [getProgress_max]
  | resetOp now =>
    show (t.reset now).1.calculator.maxHistorySize = _
    unfold ProgressTracker.reset
    simp
  | completeOp now =>
    show (t.complete now).1.calculator.maxHistorySize = _
    unfold ProgressTracker.complete
    split
    · exact getProgress_max t now
    · rw [getProgress_max, setState_fst_calculator]
  | setTotalOp x => rfl
  | readOp now => exact getProgress_max t now

lemma applyOps_hist (ops : List TOp) :
    ∀ t : ProgressTracker, histInv t →
      histInv (t.applyOps ops) ∧
      (t.applyOps ops).calculator.maxHistorySize = t.calculator.maxHistorySize := by
  induction ops with
  | nil => intro t h; exact ⟨h, rfl⟩
  | cons op rest ih =>
    intro t h
    have hstep := applyOp_hist t op h
    have hmax := applyOp_max t op
    have := ih (t.applyOp op) hstep
    exact ⟨this.1, this.2.trans hmax⟩

/-- C8: after any sequence of tracker operations the speed-history buffer holds
at most 10 samples; when a sample is recorded (`elapsed > 0`) the reported
speed is the arithmetic mean of the buffer after the update, and the buffer is
a suffix of the old buffer with the new sample appended (the most recent
samples); `reset()` empties the buffer. -/
theorem claim8_speed_history :
    (∀ (T t0 : ℚ) (d : String) (ops : List TOp),
      ((ProgressTracker.mk0 T d t0).applyOps ops).calculator.speedHistory.length ≤ 10) ∧
    (∀ (cs : CalcState) (c e : ℚ), 0 < e →
      (StandardProgressCalculator.calculateSpeed cs c e).1
          = listMean (StandardProgressCalculator.calculateSpeed cs c e).2.speedHistory ∧
      (StandardProgressCalculator.calculateSpeed cs c e).2.speedHistory
          <:+ cs.speedHistory ++ [c / e]) ∧
    (∀ (t : ProgressTracker) (now : ℚ),
      ((t.reset now).1).calculator.speedHistory = []) := by
  refine ⟨?_, ?_, ?_⟩
  · intro T t0 d ops
    have h0 : histInv (ProgressTracker.mk0 T d t0) := by
      unfold histInv ProgressTracker.mk0 CalcState.init
      simp
    have := applyOps_hist ops (ProgressTracker.mk0 T d t0) h0
    have hmax : ((ProgressTracker.mk0 T d t0).applyOps ops).calculator.maxHistorySize = 10 :=
      this.2
    have hlen := this.1
    unfold histInv at hlen
    omega
  · intro cs c e he
    simp only [StandardProgressCalculator.calculateSpeed, if_neg (not_le.mpr he)]
    constructor
    · rfl
    · split
      · exact List.tail_suffix _
      · exact List.suffix_refl _
  · intro t now
    rfl

/-- Witness for C8: one increment leaves at most 10 samples; a sample taken at
`current = 3`, `elapsed = 1` reports the mean of the updated buffer; a reset
clears the buffer. -/
theorem claim8_witness :
    ((ProgressTracker.mk0 5 "d" 0).applyOps [TOp.incrOp 1 100]).calculator.speedHistory.length ≤ 10 ∧
    (StandardProgressCalculator.calculateSpeed ⟨[2], 10⟩ 3 1).1
        = listMean (StandardProgressCalculator.calculateSpeed ⟨[2], 10⟩ 3 1).2.speedHistory ∧
    (((ProgressTracker.mk0 5 "d" 0).reset 7).1).calculator.speedHistory = [] :=
  ⟨claim8_speed_history.1 5 0 "d" [TOp.incrOp 1 100],
   (claim8_speed_history.2.1 ⟨[2], 10⟩ 3 1 (by norm_num)).1,
   claim8_speed_history.2.2 (ProgressTracker.mk0 5 "d" 0) 7⟩

lemma setState_events_progressTo (t : ProgressTracker) (s' : TState) (o : ℕ) :
    ((t.setState s').2).countP (TEvent.progressTo o) = 0 := by
  unfold ProgressTracker.setState
  split
  · rfl
  · simp only [List.countP_cons, List.countP_map]
    rw [List.countP_eq_zero.mpr]
    · rfl
    · intro x hx
      unfold ProgressTracker.notifyStateChange at hx
      obtain ⟨y, _, rfl⟩ := List.mem_map.mp hx
      simp [TEvent.progressTo]

lemma notifyObservers_count (t : ProgressTracker) (snap : Snapshot) (o : ℕ) :
    (t.notifyObservers snap).countP (TEvent.progressTo o)
      = t.observers.countP (fun x => decide (x = o)) := by
  unfold ProgressTracker.notifyObservers
  rw [List.countP_map]
  rfl

lemma increment_notifies (t : ProgressTracker) (a now : ℚ) (o : ℕ)
    (hst : ¬ t.state = .completed) :
    ((t.increment a now).2.2).countP (TEvent.progressTo o)
      = t.observers.countP (fun x => decide (x = o)) := by
  unfold ProgressTracker.increment
  rw [if_neg hst]
  simp only [List.countP_append]
  split
  · rw [setState_events_progressTo, notifyObservers_count]
    simp
  · rw [List.countP_nil, notifyObservers_count]
    simp

@[simp] lemma addObserver_state (t : ProgressTracker) (o : ℕ) :
    (t.addObserver o).state = t.state := rfl

@[simp] lemma removeObserver_state (t : ProgressTracker) (o : ℕ) :
    (t.removeObserver o).state = t.state := rfl

lemma addObserver_new (t : ProgressTracker) (o : ℕ) (ho : o ∉ t.observers) :
    (t.addObserver o).observers = t.observers ++ [o] := by
  simp [ProgressTracker.addObserver, ho]

lemma addObserver_mem (t : ProgressTracker) (o : ℕ) (ho : o ∈ t.observers) :
    t.addObserver o = t := by
  unfold ProgressTracker.addObserver
  rw [if_pos ho]

/-- C10: registering the same observer twice via `addObserver` stores it once
(`Set` semantics); an `increment` on a not-yet-completed tracker then notifies
it exactly once; invoking the returned detachment handle removes it entirely,
after which further increments notify it zero times. -/
theorem claim10_observer_set_semantics (t : ProgressTracker) (o : ℕ) (a now a' now' : ℚ)
    (ho : o ∉ t.observers) (hst : t.state ≠ .completed) :
    (t.addObserver o).addObserver o = t.addObserver o ∧
    ((((t.addObserver o).addObserver o).increment a now).2.2).countP
        (TEvent.progressTo o) = 1 ∧
    (((t.addObserver o).addObserver o).removeObserver o).observers = t.observers ∧
    (((((t.addObserver o).addObserver o).removeObserver o).increment a' now').2.2).countP
        (TEvent.progressTo o) = 0 := by
  have h1 : (t.addObserver o).observers = t.observers ++ [o] := addObserver_new t o ho
  have hdup : (t.addObserver o).addObserver o = t.addObserver o := by
    apply addObserver_mem
    rw [h1]
    simp
  have hcount0 : t.observers.countP (fun x => decide (x = o)) = 0 := by
    rw [List.countP_eq_zero]
    intro x hx
    simp only [decide_eq_true_eq]
    exact fun hxo => ho (hxo ▸ hx)
  refine ⟨hdup, ?_, ?_, ?_⟩
  · rw [hdup, increment_notifies _ a now o (by rw [addObserver_state]; exact hst), h1]
    simp [hcount0]
  · rw [hdup]
    show ((t.addObserver o).observers.erase o) = t.observers
    rw [h1, List.erase_append_right _ ho]
    simp
  · rw [hdup, increment_notifies _ a' now' o (by rw [removeObserver_state, addObserver_state]; exact hst)]
    show ((t.addObserver o).observers.erase o).countP (fun x => decide (x = o)) = 0
    rw [h1, List.erase_append_right _ ho]
    simpa using hcount0

/-- Witness for C10 on a fresh tracker and observer 7. -/
theorem claim10_witness :
    ((ProgressTracker.mk0 5 "d" 0).addObserver 7).addObserver 7
        = (ProgressTracker.mk0 5 "d" 0).addObserver 7 ∧
    (((((ProgressTracker.mk0 5 "d" 0).addObserver 7).addObserver 7).increment 1 100).2.2).countP
        (TEvent.progressTo 7) = 1 ∧
    ((((ProgressTracker.mk0 5 "d" 0).addObserver 7).addObserver 7).removeObserver 7).observers
        = (ProgressTracker.mk0 5 "d" 0).observers ∧
    ((((((ProgressTracker.mk0 5 "d" 0).addObserver 7).addObserver 7).removeObserver 7).increment
        1 200).2.2).countP (TEvent.progressTo 7) = 0 :=
  claim10_observer_set_semantics (ProgressTracker.mk0 5 "d" 0) 7 1 100 1 200
    (by decide) (by decide)

lemma calculate_percentage (cs : CalcState) (c t st lu now : ℚ) :
    (StandardProgressCalculator.calculate cs c t st lu now).1.percentage
      = StandardProgressCalculator.percentageOf c t := rfl

lemma getProgress_percentage (t : ProgressTracker) (now : ℚ) :
    (t.getProgress now).1.percentage
      = StandardProgressCalculator.percentageOf t.current t.total := rfl

lemma percentageOf_bounds (c t : ℚ) (ht : 0 < t) (hc : 0 ≤ c) (hct : c ≤ t) :
    0 ≤ StandardProgressCalculator.percentageOf c t ∧
      StandardProgressCalculator.percentageOf c t ≤ 100 := by
  unfold StandardProgressCalculator.percentageOf
  rw [if_pos ht]
  have hdiv0 : 0 ≤ c / t := div_nonneg hc ht.le
  have hdiv1 : c / t ≤ 1 := (div_le_one ht).mpr hct
  have hx0 : (0:ℚ) ≤ c / t * 100 * 100 := by nlinarith
  have hx1 : c / t * 100 * 100 ≤ 10000 := by nlinarith
  have hl : (0:ℤ) ≤ jsRound (c / t * 100 * 100) := by
    apply Int.le_floor.mpr
    push_cast
    linarith
  have hu : jsRound (c / t * 100 * 100) ≤ 10000 := by
    have : jsRound (c / t * 100 * 100) < 10001 := by
      apply Int.floor_lt.mpr
      push_cast
      linarith
    omega
  constructor
  · positivity
  · rw [div_le_iff₀ (by norm_num : (0:ℚ) < 100)]
    have hq : ((jsRound (c / t * 100 * 100) : ℤ) : ℚ) ≤ 10000 := by exact_mod_cast hu
    linarith

lemma percentageOf_self (c : ℚ) (hc : 0 < c) :
    StandardProgressCalculator.percentageOf c c = 100 := by
  unfold StandardProgressCalculator.percentageOf
  rw [if_pos hc, div_self (ne_of_gt hc)]
  have h : jsRound ((1:ℚ) * 100 * 100) = 10000 := by
    unfold jsRound
    norm_num
  rw [h]
  norm_num

lemma percentageOf_nonpos (c t : ℚ) (ht : t ≤ 0) :
    StandardProgressCalculator.percentageOf c t = 0 := by
  unfold StandardProgressCalculator.percentageOf
  rw [if_neg (not_lt.mpr ht)]

/-- C2: for `total > 0` and `0 ≤ current ≤ total`, the calculator's percentage
is between 0 and 100; for `current = total` it is exactly 100 (the
integer-scaled rounding is exact on rationals); for `total ≤ 0` it is 0. -/
theorem claim2_calculate_percentage_bounds (cs : CalcState) (c t st lu now : ℚ) :
    (0 < t → 0 ≤ c → c ≤ t →
      0 ≤ (StandardProgressCalculator.calculate cs c t st lu now).1.percentage ∧
      (StandardProgressCalculator.calculate cs c t st lu now).1.percentage ≤ 100 ∧
      (c = t → (StandardProgressCalculator.calculate cs c t st lu now).1.percentage = 100)) ∧
    (t ≤ 0 → (StandardProgressCalculator.calculate cs c t st lu now).1.percentage = 0) := by
  rw [calculate_percentage]
  constructor
  · intro ht hc hct
    refine ⟨(percentageOf_bounds c t ht hc hct).1, (percentageOf_bounds c t ht hc hct).2, ?_⟩
    rintro rfl
    exact percentageOf_self c ht
  · intro ht
    exact percentageOf_nonpos c t ht

/-- Witness for C2 at `current = total = 4`: the percentage is exactly 100. -/
theorem claim2_witness :
    (StandardProgressCalculator.calculate CalcState.init 4 4 0 0 1000).1.percentage = 100 :=
  ((claim2_calculate_percentage_bounds CalcState.init 4 4 0 0 1000).1
    (by norm_num) (by norm_num) (by norm_num)).2.2 rfl

/-- C5 counterexample: after `setTotal` lowers `total` (10 → 2) strictly below
`current` (4), the next snapshot's percentage is 200, exceeding 100 — the
snapshot computation performs no clamping. -/
theorem claim5_counterexample :
    ((((ProgressTracker.mk0 10 "d" 0).increment 4 1000).1.setTotal 2).getProgress
        2000).1.percentage = 200 ∧
    ¬ ((((ProgressTracker.mk0 10 "d" 0).increment 4 1000).1.setTotal 2).getProgress
        2000).1.percentage ≤ 100 := by
  decide

/-- C5 amended: in every tracker state with `0 ≤ current ≤ total` the next
snapshot's percentage lies in [0, 100], and it is 0 when `total ≤ 0`; after
`setTotal` lowers `total` strictly below `current` the percentage is not
clamped and exceeds 100 (see the counterexample). -/
theorem claim5_amended_percentage_bounds (t : ProgressTracker) (now : ℚ) :
    (0 ≤ t.current → t.current ≤ t.total →
      0 ≤ (t.getProgress now).1.percentage ∧ (t.getProgress now).1.percentage ≤ 100) ∧
    (t.total ≤ 0 → (t.getProgress now).1.percentage = 0) := by
  rw [getProgress_percentage]
  constructor
  · intro h0 h1
    rcases lt_or_le 0 t.total with ht | ht
    · exact percentageOf_bounds _ _ ht h0 h1
    · rw [percentageOf_nonpos _ _ ht]
      norm_num
  · intro ht
    exact percentageOf_nonpos _ _ ht

/-- Witness for the amended C5 on a fresh tracker. -/
theorem claim5_witness :
    0 ≤ ((ProgressTracker.mk0 5 "w" 0).getProgress 0).1.percentage ∧
    ((ProgressTracker.mk0 5 "w" 0).getProgress 0).1.percentage ≤ 100 :=
  (claim5_amended_percentage_bounds (ProgressTracker.mk0 5 "w" 0) 0).1
    (by norm_num [ProgressTracker.mk0]) (by norm_num [ProgressTracker.mk0])

/-- C7: the calculator's ETA equals `(total - current) / speed` exactly when
`current > 0`, `current < total` and `speed > 0`, and equals 0 otherwise; it
is never negative (the model's exact rationals have no NaN or Infinity, and
the guard keeps every used denominator nonzero). -/
theorem claim7_eta (cs : CalcState) (c t st lu now : ℚ) :
    0 ≤ (StandardProgressCalculator.calculate cs c t st lu now).1.eta ∧
    ((0 < c ∧ c < t ∧ 0 < (StandardProgressCalculator.calculate cs c t st lu now).1.speed) →
      (StandardProgressCalculator.calculate cs c t st lu now).1.eta
        = (t - c) / (StandardProgressCalculator.calculate cs c t st lu now).1.speed) ∧
    (¬ (0 < c ∧ c < t ∧ 0 < (StandardProgressCalculator.calculate cs c t st lu now).1.speed) →
      (StandardProgressCalculator.calculate cs c t st lu now).1.eta = 0) := by
  have he : (StandardProgressCalculator.calculate cs c t st lu now).1.eta
      = if 0 < c ∧ c < t ∧ 0 < (StandardProgressCalculator.calculate cs c t st lu now).1.speed
        then (t - c) / (StandardProgressCalculator.calculate cs c t st lu now).1.speed
        else 0 := rfl
  by_cases h : 0 < c ∧ c < t ∧ 0 < (StandardProgressCalculator.calculate cs c t st lu now).1.speed
  · rw [he, if_pos h]
    exact ⟨div_nonneg (sub_nonneg.mpr h.2.1.le) h.2.2.le, fun _ => rfl, fun hc => absurd h hc⟩
  · rw [he, if_neg h]
    exact ⟨le_refl 0, fun hc => absurd hc h, fun _ => rfl⟩

/-- C3 (code bug): at the tracker level the second `complete()` does not
return a snapshot identical to the first — `getProgress` re-runs the
calculator, which appends another speed sample, so the reported speed drifts
from 15/2 to 25/3 (it does re-notify nobody, as claimed); at the session
level the first `complete()` calls `stop()`, which overwrites the session
state `completed` with `stopped`, so the second `complete()` fails the
idempotence guard and invokes the renderer again — contradicting the source's
own comment `Idempotent - no double rendering`. -/
theorem claim3_complete_idempotence_bug :
    c3first.2.1.speed = 15 / 2 ∧
    c3second.2.1.speed = 25 / 3 ∧
    c3first.2.1 ≠ c3second.2.1 ∧
    c3second.2.2 = [] ∧
    c3barFirst.2.2.countP BEvent.isRender = 1 ∧
    c3barFirst.1.state = .stopped ∧
    c3barSecond.2.2.countP BEvent.isRender = 1 := by
  decide

/-- C4 (code bug): once the tracker is `completed`, a further tracker-level
`increment` indeed leaves `current`, `total` and `state` unchanged, returns
the already-complete snapshot, and notifies no observers; but when completion
was reached through the session's `complete()` the session state is `stopped`
rather than `completed`, so a further session-level `update()` bypasses the
no-op guard and invokes the renderer again. -/
theorem claim4_update_after_complete_bug :
    c4bar.tracker.state = .completed ∧
    c4incr.1.current = c4bar.tracker.current ∧
    c4incr.1.total = c4bar.tracker.total ∧
    c4incr.1.state = .completed ∧
    c4incr.2.2 = [] ∧
    c4incr.2.1.isComplete = true ∧
    c4update.2.2.countP BEvent.isRender = 1 := by
  decide

/-- C9 (code bug): on task failure `withProgress` behaves as claimed — the
session ends `stopped`, the failure notice names the description, and the
original error is re-raised unchanged; but on a normal return from a task
that did not reach the total, the helper's `complete()` calls `stop()`, which
overwrites the session state with `stopped`, so the session does not end
`completed`. -/
theorem claim9_withProgress_stop_bug :
    c9fail.1 = .error "boom" ∧
    c9fail.2.1.state = .stopped ∧
    BEvent.consoleErrorFail "job" "boom" ∈ c9fail.2.2 ∧
    c9ok.1 = .ok "done" ∧
    c9ok.2.1.state = .stopped ∧
    c9ok.2.1.state ≠ .completed := by
  refine ⟨rfl, by decide, by decide, rfl, by decide, by decide⟩

/-- C6 counterexample: with `updateThrottle = 100` and a previous render at
time 0, a render carrying `isComplete = true` at time 50 is dropped by the
throttle — it produces no output and does not even mark completion as
rendered. -/
theorem claim6_counterexample :
    (0:ℚ) < 100 ∧ (50:ℚ) - ConsoleProgressRenderer.init.lastRenderTime < 100 ∧
    c6snap.isComplete = true ∧
    ConsoleProgressRenderer.render ⟨100, false⟩ ConsoleProgressRenderer.init c6snap 50 true
      = (ConsoleProgressRenderer.init, []) := by
  decide

/-- C6 amended: with `updateThrottle > 0`, every render call arriving within
the configured interval of the previous render is dropped — state unchanged
and no output — regardless of whether the snapshot carries
`isComplete = true`; completion is not exempt from the throttle. -/
theorem claim6_amended_throttle_drops_all (cfg : RenderCfg) (rs : RenderState)
    (snap : Snapshot) (now : ℚ) (inter : Bool)
    (h₁ : 0 < cfg.updateThrottle) (h₂ : now - rs.lastRenderTime < cfg.updateThrottle) :
    ConsoleProgressRenderer.render cfg rs snap now inter = (rs, []) := by
  unfold ConsoleProgressRenderer.render
  rw [if_pos ⟨h₁, h₂⟩]

/-- Witness for the amended C6: a non-complete render 60ms after the epoch is
dropped under a 200ms throttle. -/
theorem claim6_witness :
    ConsoleProgressRenderer.render ⟨200, false⟩ ConsoleProgressRenderer.init
        ⟨1, 5, 20, 1, 0, 1, false, false, "w", .active⟩ 60 true
      = (ConsoleProgressRenderer.init, []) :=
  claim6_amended_throttle_drops_all ⟨200, false⟩ ConsoleProgressRenderer.init
    ⟨1, 5, 20, 1, 0, 1, false, false, "w", .active⟩ 60 true
    (by norm_num) (by decide)

/-- Witness for C7: at `current = 3`, `total = 10`, one second elapsed, the
ETA is `(10 - 3) / 3`; at `current = 0` it is 0. -/
theorem claim7_witness :
    (StandardProgressCalculator.calculate CalcState.init 3 10 0 0 1000).1.eta
        = (10 - 3) / (StandardProgressCalculator.calculate CalcState.init 3 10 0 0 1000).1.speed ∧
    (StandardProgressCalculator.calculate CalcState.init 0 5 0 0 1000).1.eta = 0 :=
  ⟨(claim7_eta CalcState.init 3 10 0 0 1000).2.1 (by refine ⟨by norm_num, by norm_num, ?_⟩; decide),
   (claim7_eta CalcState.init 0 5 0 0 1000).2.2 (by decide)⟩

end Progressor
